import Mathlib

/-!
Verification of the socket-mode core of `suptech-go-kit`.

The Go sources embedded here:
* `pkg/apis/slack/socket_mode.go` — the session supervisor
  (`RunWithHandler`, `processConnection`, `waitReconnect`);
* the RFC-6455 websocket implementation (`rfc6455Dialer`,
  `websocketClientHandshake`, `websocketConn.readMessage`,
  `websocketConn.readFrame`, `readPayloadLength`, `buildClientFrame`).

Bytes are modelled as `Nat` (frame byte streams are `List Nat`), Go
errors as the inductive `GoError`, and the effectful readers as pure
functions consuming a list.
-/

namespace SuptechSocketMode

/-- Model of the Go `error` values that flow through the socket-mode
core.  `wrap` models `fmt.Errorf("...: %w", inner)`; `errors.Is`
unwraps through it.  `canceled` / `deadlineExceeded` are the
`context.Canceled` / `context.DeadlineExceeded` sentinels, `eof` is
`io.EOF` (also what `io.ReadFull` reports on a short stream). -/
inductive GoError where
  | canceled
  | deadlineExceeded
  | eof
  | frameTooLarge (n : Nat)
  | lengthOverflow
  | unexpectedDataFrame
  | unexpectedContinuationFrame
  | unsupportedOpcode (n : Nat)
  | closedPipe
  | wrap (msg : String) (inner : GoError)
  | other (msg : String)
deriving DecidableEq, Repr, BEq

/-- `errors.Is(err, target)`: `err` equals `target` at some unwrap
level (our non-`wrap` constructors have no `Unwrap`). -/
def errorsIs (err target : GoError) : Bool :=
  err == target ||
    match err with
    | .wrap _ inner => errorsIs inner target
    | _ => false

/-- `strings.TrimSpace`: drop leading and trailing whitespace
characters of the string. -/
def goTrimSpace (s : String) : String :=
  ⟨((s.data.dropWhile Char.isWhitespace).reverse.dropWhile Char.isWhitespace).reverse⟩

/-! ## Session supervisor data model (`socket_mode.go`) -/

/-- `SocketModeEvent`: one event envelope delivered over socket mode.
The opaque `json.RawMessage` payload and the retry metadata are
carried as plain values. -/
structure SocketModeEvent where
  type : String := ""
  envelopeID : String := ""
  acceptsResponsePayload : Bool := false
  payload : Option String := none
  retryAttempt : Nat := 0
  retryReason : String := ""
deriving Repr, DecidableEq

/-- `SocketModeResponse`: optional payload sent in the envelope ACK.
The Go field has type `any`; a `nil` payload is `none`. -/
structure SocketModeResponse where
  payload : Option String := none
deriving Repr, DecidableEq

/-- One acknowledgement map as built in `processConnection`:
`{"envelope_id": ..., "payload"?: ...}`.  `payload = none` means the
`"payload"` key is absent from the map. -/
structure Ack where
  envelopeID : String
  payload : Option (Option String) := none
deriving Repr, DecidableEq

/-- Outcome of one iteration of the `processConnection` read loop. -/
inductive LoopOutcome where
  | continueLoop
  | abort (e : GoError)
deriving Repr, DecidableEq

/-- The body of the `processConnection` loop after a successful
`ReadJSON` (lines 249–275 of `socket_mode.go`), for one event.
`handlerResult` is `none` when `handler == nil`, otherwise the result
of `handler.HandleEvent` (`.error e` for a handler error — which is
only logged — and `.ok r` for `(r, nil)`, where `r` may itself be the
`nil` pointer, i.e. `none`).  `writeErr` is the result of
`conn.WriteJSON(ack)` when it is attempted.  Returns the list of acks
written on the connection by this iteration and whether the loop
continues to the next read or aborts with an error. -/
def processIteration (event : SocketModeEvent)
    (handlerResult : Option (Except GoError (Option SocketModeResponse)))
    (writeErr : Option GoError) : List Ack × LoopOutcome :=
  let response : Option SocketModeResponse :=
    match handlerResult with
    | none => none
    | some (.error _) => none
    | some (.ok handlerResponse) => handlerResponse
  if goTrimSpace event.envelopeID = "" then
    ([], .continueLoop)
  else
    let ack : Ack :=
      { envelopeID := event.envelopeID
        payload :=
          match response with
          | some r => if event.acceptsResponsePayload then some r.payload else none
          | none => none }
    match writeErr with
    | none => ([ack], .continueLoop)
    | some e => ([ack], .abort e)

/-- Oracle for one iteration of `processConnection`: the result of the
blocking `conn.ReadJSON`, the handler invocation, and the ack write. -/
structure IterOracle where
  readResult : Except GoError SocketModeEvent
  handlerResult : Option (Except GoError (Option SocketModeResponse)) := none
  writeErr : Option GoError := none

/-- The `processConnection` read loop over a stream of iteration
oracles: each iteration first performs `conn.ReadJSON` (a read error
returns it immediately), then runs the loop body.  Returns all acks
written and the error the loop returned (`none` when the oracle stream
was exhausted with the loop still running). -/
def processConnection : List IterOracle → List Ack → List Ack × Option GoError
  | [], acks => (acks, none)
  | o :: rest, acks =>
    match o.readResult with
    | .error e => (acks, some e)
    | .ok event =>
      let (newAcks, outcome) := processIteration event o.handlerResult o.writeErr
      match outcome with
      | .abort e => (acks ++ newAcks, some e)
      | .continueLoop => processConnection rest (acks ++ newAcks)

/-! ## Reconnect wait and the run loop (`socket_mode.go`) -/

/-- `defaultSocketModeReconnectDelay = time.Second`, in nanoseconds. -/
def defaultSocketModeReconnectDelay : Int := 1000000000

/-- `waitReconnect` (lines 278–296).  Real time is abstracted:
`ctxDone` is the context's `Err()` by the time the `select` resolves
(`some e` exactly when the context is done, i.e. was cancelled before
or during the wait).  With a non-positive delay the `select` has a
`default` branch; with a positive delay it races `ctx.Done()` against
the timer, and the `ctx.Done()` branch is taken iff the context is
done. -/
def waitReconnect (reconnectDelay : Int) (ctxDone : Option GoError) : Option GoError :=
  if reconnectDelay ≤ 0 then
    match ctxDone with
    | some e => some e
    | none => none
  else
    match ctxDone with
    | some e => some e
    | none => none

/-- Result of one iteration of the outer `RunWithHandler` loop:
either `return e` to the caller or `continue` (back to the top, i.e.
a new `Opening` attempt). -/
inductive IterStep where
  | ret (e : GoError)
  | again
deriving Repr, DecidableEq

/-- Lines 209–227 of `RunWithHandler`: the decision taken after
`processConnection` returns `err` (with the connection closed).
`ctxErr` is `ctx.Err()` at that point; `waitRes` is the result of the
`waitReconnect` call reached on the reconnect paths. -/
def afterProcessConnection (err : Option GoError) (ctxErr : Option GoError)
    (waitRes : Option GoError) : IterStep :=
  match err with
  | none =>
    match waitRes with
    | some waitErr => .ret waitErr
    | none => .again
  | some e =>
    if errorsIs e .canceled || errorsIs e .deadlineExceeded then
      .ret e
    else
      match ctxErr with
      | some ctxE => .ret ctxE
      | none =>
        match waitRes with
        | some waitErr => .ret waitErr
        | none => .again

/-- Oracle for one iteration of the outer `RunWithHandler` loop. -/
structure LoopOracle where
  ctxErr : Option GoError := none
  openResult : Except GoError String := .ok ""
  dialResult : Except GoError Unit := .ok ()
  procErr : Option GoError := none
  ctxErrAfter : Option GoError := none
  ctxDuringWait : Option GoError := none

/-- One iteration of the `RunWithHandler` loop (lines 185–228):
check `ctx.Err()`, call `openConnection`, dial; on dial failure log
and `waitReconnect`; on success run the connection and decide via
`afterProcessConnection`. -/
def runStep (reconnectDelay : Int) (o : LoopOracle) : IterStep :=
  match o.ctxErr with
  | some e => .ret e
  | none =>
    match o.openResult with
    | .error e => .ret e
    | .ok _ =>
      match o.dialResult with
      | .error _ =>
        match waitReconnect reconnectDelay o.ctxDuringWait with
        | some waitErr => .ret waitErr
        | none => .again
      | .ok _ =>
        afterProcessConnection o.procErr o.ctxErrAfter
          (waitReconnect reconnectDelay o.ctxDuringWait)

/-- The outer `RunWithHandler` loop over a stream of iteration
oracles.  `some e` is the error returned to the caller; `none` means
the oracle stream was exhausted with the loop still running. -/
def runLoop (reconnectDelay : Int) : List LoopOracle → Option GoError
  | [] => none
  | o :: rest =>
    match runStep reconnectDelay o with
    | .ret e => some e
    | .again => runLoop reconnectDelay rest

/-! ## Frame codec (websocket implementation) -/

/-- `maxWebSocketFrameSize = 32 << 20` (32 MiB). -/
def maxWebSocketFrameSize : Nat := 32 <<< 20

/-- `webSocketHandshakeTimeout = 10 * time.Second`, in nanoseconds. -/
def webSocketHandshakeTimeout : Int := 10 * 1000000000

def wsOpcodeContinuation : Nat := 0x0
def wsOpcodeText : Nat := 0x1
def wsOpcodeBinary : Nat := 0x2
def wsOpcodeClose : Nat := 0x8
def wsOpcodePing : Nat := 0x9
def wsOpcodePong : Nat := 0xA

/-- The masking loops of `buildClientFrame` and `readFrame`:
byte `i` of the result is `payload[i] XOR mask[i%4]`, starting at
index `i`. -/
def xorMaskFrom (mask : List Nat) : Nat → List Nat → List Nat
  | _, [] => []
  | i, b :: rest => (b ^^^ mask.getD (i % 4) 0) :: xorMaskFrom mask (i + 1) rest

/-- XOR the 4-byte cycling `mask` into `payload` (used for both
masking on encode and unmasking on decode). -/
def xorMask (payload mask : List Nat) : List Nat := xorMaskFrom mask 0 payload

/-- `buildClientFrame(opcode, payload)` from the websocket code, with
the 4 random mask bytes (`rand.Read(mask)`) passed in explicitly:
first byte `0x80 | opcode` (FIN set), then the length bytes — the
low-7-bits length with the mask bit `0x80` when `len < 126`, `126`
plus a big-endian `uint16` when `len ≤ 0xFFFF`, else `127` plus a
big-endian `uint64` — then the mask, then the masked payload. -/
def buildClientFrame (opcode : Nat) (payload : List Nat) (mask : List Nat) : List Nat :=
  let payloadLen := payload.length
  let lenBytes : List Nat :=
    if payloadLen < 126 then
      [payloadLen ||| 0x80]
    else if payloadLen ≤ 0xFFFF then
      [126 ||| 0x80, payloadLen / 2 ^ 8 % 256, payloadLen % 256]
    else
      [127 ||| 0x80,
        payloadLen / 2 ^ 56 % 256, payloadLen / 2 ^ 48 % 256,
        payloadLen / 2 ^ 40 % 256, payloadLen / 2 ^ 32 % 256,
        payloadLen / 2 ^ 24 % 256, payloadLen / 2 ^ 16 % 256,
        payloadLen / 2 ^ 8 % 256, payloadLen % 256]
  (0x80 ||| opcode) :: lenBytes ++ mask ++ xorMask payload mask

/-- `io.ReadFull(reader, buf[:n])`: take exactly `n` bytes from the
stream or fail with an end-of-file error. -/
def readFull (n : Nat) (s : List Nat) : Except GoError (List Nat × List Nat) :=
  if n ≤ s.length then .ok (s.take n, s.drop n) else .error .eof

/-- `readPayloadLength(base)`: `126` reads a big-endian `uint16`
extension, `127` reads a big-endian `uint64` extension (rejected when
it exceeds the maximum Go `int`, `2^63 - 1`), anything else is the
inline length. -/
def readPayloadLength (base : Nat) (s : List Nat) : Except GoError (Nat × List Nat) :=
  if base = 126 then
    match s with
    | b0 :: b1 :: rest => .ok (b0 * 2 ^ 8 + b1, rest)
    | _ => .error .eof
  else if base = 127 then
    match s with
    | b0 :: b1 :: b2 :: b3 :: b4 :: b5 :: b6 :: b7 :: rest =>
      let length := b0 * 2 ^ 56 + b1 * 2 ^ 48 + b2 * 2 ^ 40 + b3 * 2 ^ 32 +
        b4 * 2 ^ 24 + b5 * 2 ^ 16 + b6 * 2 ^ 8 + b7
      if length > 2 ^ 63 - 1 then .error .lengthOverflow
      else .ok (length, rest)
    | _ => .error .eof
  else
    .ok (base, s)

/-- `readFrame`: read the 2-byte header, extract FIN / opcode /
mask-bit / length indicator, read the extended length, reject frames
above `maxWebSocketFrameSize`, read the 4-byte mask key when the mask
bit is set (the `[4]byte` array stays zero otherwise), read exactly
`payloadLen` payload bytes, and unmask when masked.  Returns
`(opcode, fin, payload, remaining stream)`. -/
def readFrame : List Nat → Except GoError (Nat × Bool × List Nat × List Nat)
  | h0 :: h1 :: s =>
    let fin : Bool := h0 &&& 0x80 != 0
    let opcode := h0 &&& 0x0F
    let maskBit : Bool := h1 &&& 0x80 != 0
    match readPayloadLength (h1 &&& 0x7F) s with
    | .error e => .error e
    | .ok (payloadLen, s1) =>
      if payloadLen > maxWebSocketFrameSize then
        .error (.frameTooLarge payloadLen)
      else
        match (if maskBit then readFull 4 s1 else .ok ([0, 0, 0, 0], s1)) with
        | .error e => .error e
        | .ok (mask, s2) =>
          match readFull payloadLen s2 with
          | .error e => .error e
          | .ok (payload, s3) =>
            let payload := if maskBit then xorMask payload mask else payload
            .ok (opcode, fin, payload, s3)
  | _ => .error .eof

/-! ## Message reassembly (`websocketConn.readMessage`)

`readMessage` loops over decoded frames; here the byte-level
`readFrame` (modelled above, and proven against `buildClientFrame`
below) is abstracted into a stream of already-decoded frames, so the
loop is a function of that stream.  Pong replies to pings are writes
on the connection; `writeResults` supplies the outcome of each
`writeFrame(wsOpcodePong, ...)` call in order (an exhausted list means
the writes succeed), and the list of attempted pong payloads is
returned alongside the result. -/

/-- One decoded frame as returned by `readFrame`. -/
structure WsFrame where
  opcode : Nat
  fin : Bool
  payload : List Nat
deriving Repr, DecidableEq

/-- The `readMessage` loop, carrying its `bytes.Buffer` and
`expectContinuation` state.  A data frame with FIN set is returned
directly; with FIN clear it starts accumulation.  Continuations append
to the buffer and return it on FIN.  A ping is answered with one pong
carrying the same payload (recorded in the write list, and failing the
read if that write fails); a pong is skipped; a close frame — like an
exhausted stream — is an end-of-stream `io.EOF`.  A data frame while a
sequence is open, a continuation with no open sequence, and an unknown
opcode are protocol errors. -/
def readMessageLoop : List WsFrame → List (Option GoError) → List (List Nat) →
    List Nat → Bool → List (List Nat) × Except GoError (List Nat)
  | [], _, writes, _, _ => (writes, .error .eof)
  | f :: rest, writeResults, writes, buffer, expectContinuation =>
    if f.opcode = wsOpcodeText ∨ f.opcode = wsOpcodeBinary then
      if expectContinuation then (writes, .error .unexpectedDataFrame)
      else if f.fin then (writes, .ok f.payload)
      else readMessageLoop rest writeResults writes (buffer ++ f.payload) true
    else if f.opcode = wsOpcodeContinuation then
      if !expectContinuation then (writes, .error .unexpectedContinuationFrame)
      else if f.fin then (writes, .ok (buffer ++ f.payload))
      else readMessageLoop rest writeResults writes (buffer ++ f.payload) true
    else if f.opcode = wsOpcodePing then
      let writes := writes ++ [f.payload]
      match writeResults with
      | some e :: _ => (writes, .error e)
      | none :: wr => readMessageLoop rest wr writes buffer expectContinuation
      | [] => readMessageLoop rest [] writes buffer expectContinuation
    else if f.opcode = wsOpcodePong then
      readMessageLoop rest writeResults writes buffer expectContinuation
    else if f.opcode = wsOpcodeClose then
      (writes, .error .eof)
    else
      (writes, .error (.unsupportedOpcode f.opcode))

/-- `readMessage`: the loop started with an empty buffer and no open
fragmentation sequence. -/
def readMessage (frames : List WsFrame) (writeResults : List (Option GoError)) :
    List (List Nat) × Except GoError (List Nat) :=
  readMessageLoop frames writeResults [] [] false

/-- A fragment tail: continuation frames for each payload in the list,
FIN clear on all but the last. -/
def contFrames : List (List Nat) → List WsFrame
  | [] => []
  | [p] => [⟨wsOpcodeContinuation, true, p⟩]
  | p :: rest => ⟨wsOpcodeContinuation, false, p⟩ :: contFrames rest

/-! ## Handshake deadline (`websocketClientHandshake`) -/

/-- The deadline computation at the top of `websocketClientHandshake`
(times in nanoseconds): `deadline := time.Now().Add(timeout)`, then
`if d, ok := ctx.Deadline(); ok { deadline = d }`. -/
def handshakeDeadline (now : Int) (ctxDeadline : Option Int) : Int :=
  let deadline := now + webSocketHandshakeTimeout
  match ctxDeadline with
  | some d => d
  | none => deadline

/-! ## Codec lemmas -/

theorem xorMaskFrom_length (mask : List Nat) (i : Nat) (p : List Nat) :
    (xorMaskFrom mask i p).length = p.length := by
  induction p generalizing i with
  | nil => rfl
  | cons b rest ih => simp [xorMaskFrom, ih]

/-- XOR with the cycling 4-byte key is self-inverse: unmasking a
masked payload restores it, from any starting index. -/
theorem xorMaskFrom_xorMaskFrom (mask : List Nat) (i : Nat) (p : List Nat) :
    xorMaskFrom mask i (xorMaskFrom mask i p) = p := by
  induction p generalizing i with
  | nil => rfl
  | cons b rest ih => simp [xorMaskFrom, ih, Nat.xor_cancel_right]

theorem lor128_land15 (op : Nat) (h : op < 16) : (0x80 ||| op) &&& 0x0F = op := by
  interval_cases op <;> decide

theorem lor128_land128 (op : Nat) (h : op < 16) : ((0x80 ||| op) &&& 0x80 != 0) = true := by
  interval_cases op <;> decide

theorem smallLen_land127 (n : Nat) (h : n < 126) : (n ||| 0x80) &&& 0x7F = n := by
  interval_cases n <;> decide

theorem smallLen_land128 (n : Nat) (h : n < 126) : ((n ||| 0x80) &&& 0x80 != 0) = true := by
  interval_cases n <;> decide

/-- Decoding inverts encoding: `readFrame` on a `buildClientFrame`
frame (any 4-byte mask, any following bytes) returns the original
opcode, `FIN = true`, the original payload, and the untouched
remainder of the stream, for every payload up to the frame size
limit. -/
theorem readFrame_buildClientFrame (op : Nat) (payload : List Nat)
    (m0 m1 m2 m3 : Nat) (rest : List Nat) (hop : op < 16)
    (hlen : payload.length ≤ maxWebSocketFrameSize) :
    readFrame (buildClientFrame op payload [m0, m1, m2, m3] ++ rest) =
      .ok (op, true, payload, rest) := by
  have hmax : maxWebSocketFrameSize = 33554432 := by decide
  have htake : ∀ t : List Nat, (xorMask payload [m0, m1, m2, m3] ++ t).take payload.length
      = xorMask payload [m0, m1, m2, m3] := by
    intro t
    rw [List.take_left']
    exact xorMaskFrom_length _ _ _
  have hdrop : ∀ t : List Nat, (xorMask payload [m0, m1, m2, m3] ++ t).drop payload.length = t := by
    intro t
    rw [List.drop_left']
    exact xorMaskFrom_length _ _ _
  have hxlen : ∀ t : List Nat, payload.length ≤ (xorMask payload [m0, m1, m2, m3] ++ t).length := by
    intro t
    simp [List.length_append, xorMask, xorMaskFrom_length]
  by_cases h1 : payload.length < 126
  · have h126 : payload.length ≠ 126 := by omega
    have h127 : payload.length ≠ 127 := by omega
    have hbig : ¬ payload.length > maxWebSocketFrameSize := by omega
    simp only [buildClientFrame, if_pos h1, List.cons_append, List.append_assoc,
      List.nil_append]
    simp only [readFrame, smallLen_land127 _ h1, smallLen_land128 _ h1,
      lor128_land15 _ hop, lor128_land128 _ hop, readPayloadLength,
      if_neg h126, if_neg h127, if_neg hbig, if_true, readFull]
    simp only [List.length_cons, hxlen]
    simp only [show ∀ t : List Nat, (4 ≤ t.length + 1 + 1 + 1 + 1) = True from
      fun t => eq_true (by omega), if_true]
    simp only [List.drop_succ_cons, List.drop_zero, List.take_succ_cons, List.take_zero,
      htake, hdrop, if_pos (hxlen rest)]
    simp only [xorMask, xorMaskFrom_xorMaskFrom]
  · by_cases h2 : payload.length ≤ 0xFFFF
    · have hdec : payload.length / 2 ^ 8 % 256 * 2 ^ 8 + payload.length % 256
          = payload.length := by omega
      have hbig : ¬ payload.length > maxWebSocketFrameSize := by omega
      simp only [buildClientFrame, if_neg h1, if_pos h2, List.cons_append,
        List.append_assoc, List.nil_append]
      simp only [readFrame, readPayloadLength, hdec,
        lor128_land15 _ hop, lor128_land128 _ hop,
        show (126 ||| 0x80) &&& 0x7F = 126 from by decide,
        show ((126 ||| 0x80) &&& 0x80 != 0) = true from by decide,
        if_pos rfl, if_neg hbig, if_true, readFull]
      simp only [List.length_cons, hxlen]
      simp only [show ∀ t : List Nat, (4 ≤ t.length + 1 + 1 + 1 + 1) = True from
        fun t => eq_true (by omega), if_true]
      simp only [List.drop_succ_cons, List.drop_zero, List.take_succ_cons, List.take_zero,
        htake, hdrop, if_pos (hxlen rest)]
      simp only [xorMask, xorMaskFrom_xorMaskFrom]
    · have hdec : payload.length / 2 ^ 56 % 256 * 2 ^ 56 + payload.length / 2 ^ 48 % 256 * 2 ^ 48 +
          payload.length / 2 ^ 40 % 256 * 2 ^ 40 + payload.length / 2 ^ 32 % 256 * 2 ^ 32 +
          payload.length / 2 ^ 24 % 256 * 2 ^ 24 + payload.length / 2 ^ 16 % 256 * 2 ^ 16 +
          payload.length / 2 ^ 8 % 256 * 2 ^ 8 + payload.length % 256 = payload.length := by
        omega
      have hbig : ¬ payload.length > maxWebSocketFrameSize := by omega
      have hovf : ¬ payload.length > 2 ^ 63 - 1 := by omega
      simp only [buildClientFrame, if_neg h1, if_neg h2, List.cons_append,
        List.append_assoc, List.nil_append]
      simp only [readFrame, readPayloadLength, hdec,
        lor128_land15 _ hop, lor128_land128 _ hop,
        show (127 ||| 0x80) &&& 0x7F = 127 from by decide,
        show ((127 ||| 0x80) &&& 0x80 != 0) = true from by decide,
        show (127 : Nat) ≠ 126 from by decide,
        if_neg (show ¬ (127 : Nat) = 126 from by decide), if_false, if_pos rfl,
        if_neg hovf, if_neg hbig, if_true, readFull]
      simp only [List.length_cons, hxlen]
      simp only [show ∀ t : List Nat, (4 ≤ t.length + 1 + 1 + 1 + 1) = True from
        fun t => eq_true (by omega), if_true]
      simp only [List.drop_succ_cons, List.drop_zero, List.take_succ_cons, List.take_zero,
        htake, hdrop, if_pos (hxlen rest)]
      simp only [xorMask, xorMaskFrom_xorMaskFrom]


/-- `readFrame` rejects a frame whose declared payload length exceeds
`maxWebSocketFrameSize` with a frame-too-large error (here on a frame
produced by `buildClientFrame`, which emits such frames unchecked). -/
theorem readFrame_buildClientFrame_tooLarge (op : Nat) (payload : List Nat)
    (m0 m1 m2 m3 : Nat) (rest : List Nat)
    (hbig : payload.length > maxWebSocketFrameSize)
    (hovf : payload.length ≤ 2 ^ 63 - 1) :
    readFrame (buildClientFrame op payload [m0, m1, m2, m3] ++ rest) =
      .error (.frameTooLarge payload.length) := by
  have hmax : maxWebSocketFrameSize = 33554432 := by decide
  have h1 : ¬ payload.length < 126 := by omega
  have h2 : ¬ payload.length ≤ 0xFFFF := by omega
  have hdec : payload.length / 2 ^ 56 % 256 * 2 ^ 56 + payload.length / 2 ^ 48 % 256 * 2 ^ 48 +
      payload.length / 2 ^ 40 % 256 * 2 ^ 40 + payload.length / 2 ^ 32 % 256 * 2 ^ 32 +
      payload.length / 2 ^ 24 % 256 * 2 ^ 24 + payload.length / 2 ^ 16 % 256 * 2 ^ 16 +
      payload.length / 2 ^ 8 % 256 * 2 ^ 8 + payload.length % 256 = payload.length := by
    omega
  have hovf2 : ¬ payload.length > 2 ^ 63 - 1 := by omega
  simp only [buildClientFrame, if_neg h1, if_neg h2, List.cons_append,
    List.append_assoc, List.nil_append]
  simp only [readFrame, readPayloadLength, hdec,
    show (127 ||| 0x80) &&& 0x7F = 127 from by decide,
    show ((127 ||| 0x80) &&& 0x80 != 0) = true from by decide,
    show (127 : Nat) ≠ 126 from by decide,
    if_neg (show ¬ (127 : Nat) = 126 from by decide), if_false, if_true, if_pos rfl,
    if_neg hovf2, if_pos hbig]

/-- `buildClientFrame` emits a complete frame for any payload, with no
size check: header byte + 9 length bytes + mask + masked payload. -/
theorem buildClientFrame_length_large (op : Nat) (payload mask : List Nat)
    (h : payload.length > 0xFFFF) :
    (buildClientFrame op payload mask).length = 10 + mask.length + payload.length := by
  have h1 : ¬ payload.length < 126 := by omega
  have h2 : ¬ payload.length ≤ 0xFFFF := by omega
  simp only [buildClientFrame, if_neg h1, if_neg h2]
  simp [xorMask, xorMaskFrom_length]
  omega

/-- With a fragmentation sequence open and `buffer` accumulated, a run
of continuation frames (FIN only on the last) returns the buffer
extended by all fragment payloads in order, and writes nothing. -/
theorem readMessageLoop_contFrames (ps : List (List Nat)) (hps : ps ≠ [])
    (writeResults : List (Option GoError)) (writes : List (List Nat)) (buffer : List Nat) :
    readMessageLoop (contFrames ps) writeResults writes buffer true =
      (writes, .ok (buffer ++ ps.flatten)) := by
  induction ps generalizing buffer with
  | nil => exact absurd rfl hps
  | cons p rest ih =>
    cases rest with
    | nil =>
      simp [contFrames, readMessageLoop, wsOpcodeContinuation, wsOpcodeText, wsOpcodeBinary]
    | cons q qs =>
      simp only [contFrames, readMessageLoop, wsOpcodeContinuation, wsOpcodeText,
        wsOpcodeBinary, wsOpcodePing, wsOpcodePong, wsOpcodeClose]
      norm_num
      rw [ih (List.cons_ne_nil q qs) (buffer ++ p)]
      simp

/-- A run of ping frames is consumed by answering each with one pong
carrying the same payload, in order, leaving the loop state (buffer,
fragmentation flag) untouched. -/
theorem readMessageLoop_pings (xs : List (List Nat)) (rest : List WsFrame)
    (writes : List (List Nat)) (buffer : List Nat) (expect : Bool) :
    readMessageLoop (xs.map (fun x => ⟨wsOpcodePing, false, x⟩) ++ rest) [] writes buffer expect =
      readMessageLoop rest [] (writes ++ xs) buffer expect := by
  induction xs generalizing writes with
  | nil => simp
  | cons x xs ih =>
    simp only [List.map_cons, List.cons_append]
    rw [show readMessageLoop (⟨wsOpcodePing, false, x⟩ ::
        (xs.map (fun x => ⟨wsOpcodePing, false, x⟩) ++ rest)) [] writes buffer expect =
      readMessageLoop (xs.map (fun x => ⟨wsOpcodePing, false, x⟩) ++ rest) []
        (writes ++ [x]) buffer expect from by
      simp [readMessageLoop, wsOpcodePing, wsOpcodeText, wsOpcodeBinary, wsOpcodeContinuation]]
    rw [ih]
    simp


/-! ## Claims: session supervisor -/


/-- Claim C1 fails as stated: an event whose `envelope_id` is the
non-empty whitespace string `" "` gets no Acknowledgement, because
`processConnection` tests `strings.TrimSpace(event.EnvelopeID) == ""`,
not `event.EnvelopeID == ""`. -/
theorem claim1_counterexample :
    ({ envelopeID := " " } : SocketModeEvent).envelopeID ≠ "" ∧
    processIteration { envelopeID := " " } none none = ([], .continueLoop) := by
  constructor
  · decide
  · decide

/-- Claim C1 (amended): for every event envelope read in the Connected
processing loop, an Acknowledgement is written on the connection iff
the envelope's `envelope_id` is non-empty after trimming whitespace;
and a written Acknowledgement contains a `payload` field iff the
handler was invoked and returned without error, its response was
non-nil, and the envelope's `accepts_response_payload` was true. -/
theorem claim1_ack_iff_trimmed_id (event : SocketModeEvent)
    (handlerResult : Option (Except GoError (Option SocketModeResponse)))
    (writeErr : Option GoError) :
    ((processIteration event handlerResult writeErr).1 ≠ [] ↔
      goTrimSpace event.envelopeID ≠ "") ∧
    (∀ a ∈ (processIteration event handlerResult writeErr).1,
      (a.payload ≠ none ↔
        (∃ r, handlerResult = some (.ok (some r)) ∧ a.payload = some r.payload) ∧
          event.acceptsResponsePayload = true)) := by
  unfold processIteration
  by_cases h : goTrimSpace event.envelopeID = ""
  · simp [h]
  · cases handlerResult with
    | none =>
      cases writeErr <;> simp [h]
    | some res =>
      cases res with
      | error e => cases writeErr <;> simp [h]
      | ok r =>
        cases r with
        | none => cases writeErr <;> simp [h]
        | some r =>
          cases hacc : event.acceptsResponsePayload <;> cases writeErr <;> simp [h, hacc]

theorem claim1_witness :
    (processIteration { envelopeID := "env-1", acceptsResponsePayload := true }
        (some (.ok (some { payload := some "p" }))) none).1 ≠ [] := by
  have h := claim1_ack_iff_trimmed_id
    { envelopeID := "env-1", acceptsResponsePayload := true }
    (some (.ok (some { payload := some "p" }))) none
  exact h.1.mpr (by decide)

/-- Claim C7 fails as stated: for an event whose `envelope_id` is the
non-empty whitespace string `" "`, a handler error yields no
Acknowledgement at all — not exactly one — because the ack is guarded
by `strings.TrimSpace(event.EnvelopeID) == ""`, the same check that
refutes C1. -/
theorem claim7_counterexample :
    ({ envelopeID := " " } : SocketModeEvent).envelopeID ≠ "" ∧
    processIteration { envelopeID := " " }
        (some (.error (.other "handler boom"))) none = ([], .continueLoop) := by
  constructor
  · decide
  · decide

/-- Claim C7 (amended): if the handler returns an error for an event
whose `envelope_id` is non-empty after trimming whitespace, the error
is only logged — the handler response stays nil, so exactly one
Acknowledgement with no `payload` field is still written for that
event — and the processing loop proceeds to read the next event
rather than aborting. -/
theorem claim7_handler_error_still_acked (event : SocketModeEvent) (e : GoError)
    (rest : List IterOracle) (acks : List Ack)
    (hid : goTrimSpace event.envelopeID ≠ "") :
    processIteration event (some (.error e)) none =
      ([{ envelopeID := event.envelopeID, payload := none }], .continueLoop) ∧
    processConnection
        ({ readResult := .ok event, handlerResult := some (.error e) } :: rest) acks =
      processConnection rest (acks ++ [{ envelopeID := event.envelopeID, payload := none }]) := by
  have hstep : processIteration event (some (.error e)) none =
      ([{ envelopeID := event.envelopeID, payload := none }], .continueLoop) := by
    unfold processIteration
    simp [hid]
  refine ⟨hstep, ?_⟩
  simp only [processConnection, hstep]

theorem claim7_witness :
    processIteration { envelopeID := "env-1", acceptsResponsePayload := true }
        (some (.error (.other "handler boom"))) none =
      ([{ envelopeID := "env-1", payload := none }], .continueLoop) :=
  (claim7_handler_error_still_acked
    { envelopeID := "env-1", acceptsResponsePayload := true }
    (.other "handler boom") [] [] (by decide)).1

/-- Claim C10: an envelope whose `envelope_id` trims to the empty
string — including a non-empty, whitespace-only id — is treated
exactly like one with an empty `envelope_id`: no Acknowledgement is
written for it and the processing loop proceeds directly to the next
read. -/
theorem claim10_whitespace_id_not_acked (event : SocketModeEvent)
    (handlerResult : Option (Except GoError (Option SocketModeResponse)))
    (writeErr : Option GoError)
    (hws : goTrimSpace event.envelopeID = "") :
    processIteration event handlerResult writeErr = ([], .continueLoop) := by
  unfold processIteration
  simp [hws]

theorem claim10_witness :
    processIteration { envelopeID := " \t " } (some (.ok (some { payload := some "p" }))) none =
      ([], .continueLoop) ∧ (" \t " : String) ≠ "" :=
  ⟨claim10_whitespace_id_not_acked { envelopeID := " \t " } _ _ (by decide), by decide⟩

/-- Claim C3: in the Connected state every read failure (including a
clean close delivered as `io.EOF`) ends the processing loop with that
error; the run loop then goes to Reconnecting (wait, then a new
Opening attempt) unless the failure is or wraps cancellation or
deadline expiry — in which case the error itself is returned to the
caller — or the caller's context is already cancelled, in which case
`ctx.Err()` is returned instead of reconnecting. -/
theorem claim3_read_failure_reconnects_unless_cancel (e : GoError)
    (o : IterOracle) (rest : List IterOracle) (acks : List Ack)
    (delay : Int) (u : String)
    (hread : o.readResult = .error e) :
    processConnection (o :: rest) acks = (acks, some e) ∧
    (errorsIs e .canceled = false → errorsIs e .deadlineExceeded = false →
      runStep delay ⟨none, .ok u, .ok (), some e, none, none⟩ = .again) ∧
    ((errorsIs e .canceled = true ∨ errorsIs e .deadlineExceeded = true) →
      ∀ ctxErrAfter ctxDuringWait,
        runStep delay ⟨none, .ok u, .ok (), some e, ctxErrAfter, ctxDuringWait⟩ = .ret e) ∧
    (∀ ctxE, errorsIs e .canceled = false → errorsIs e .deadlineExceeded = false →
      runStep delay ⟨none, .ok u, .ok (), some e, some ctxE, none⟩ = .ret ctxE) := by
  refine ⟨?_, ?_, ?_, ?_⟩
  · simp only [processConnection, hread]
  · intro h1 h2
    simp [runStep, afterProcessConnection, h1, h2, waitReconnect]
  · intro h ctxErrAfter ctxDuringWait
    have : (errorsIs e .canceled || errorsIs e .deadlineExceeded) = true := by
      rcases h with h | h <;> simp [h]
    simp [runStep, afterProcessConnection, this]
  · intro ctxE h1 h2
    simp [runStep, afterProcessConnection, h1, h2]

theorem claim3_witness :
    processConnection [{ readResult := .error .eof }] [] = ([], some .eof) ∧
    runStep defaultSocketModeReconnectDelay
      ⟨none, .ok "wss://x", .ok (), some .eof, none, none⟩ = .again ∧
    runStep defaultSocketModeReconnectDelay
      ⟨none, .ok "wss://x", .ok (), some (.wrap "read" .canceled), none, none⟩ =
      .ret (.wrap "read" .canceled) := by
  refine ⟨?_, ?_, ?_⟩
  · exact (claim3_read_failure_reconnects_unless_cancel .eof
      { readResult := .error .eof } [] [] defaultSocketModeReconnectDelay "wss://x" rfl).1
  · exact (claim3_read_failure_reconnects_unless_cancel .eof
      { readResult := .error .eof } [] [] defaultSocketModeReconnectDelay "wss://x" rfl).2.1
      (by decide) (by decide)
  · exact (claim3_read_failure_reconnects_unless_cancel (.wrap "read" .canceled)
      { readResult := .error (.wrap "read" .canceled) } [] [] defaultSocketModeReconnectDelay
      "wss://x" rfl).2.2.1 (Or.inl (by decide)) none none

/-- Claim C9: when the caller's context is cancelled during the
reconnect wait after a failed dial attempt, the run loop returns the
context's cancellation error rather than continuing to loop, for every
configured reconnect delay — the zero/negative-delay `select` with a
`default` branch and the positive-delay timer `select` alike return
the cancellation error whenever the context is done. -/
theorem claim9_cancel_during_wait_returns (delay : Int) (e : GoError) (de : GoError)
    (u : String) (rest : List LoopOracle) :
    runLoop delay (⟨none, .ok u, .error de, none, none, some e⟩ :: rest) = some e ∧
    waitReconnect delay (some e) = some e := by
  constructor
  · simp [runLoop, runStep, waitReconnect]
  · simp [waitReconnect]

/-- Claim C6 fails as stated: with the handshake starting at time 0
and a caller deadline 20 s away, the deadline used is 20 s — later
than 10 s after the handshake start — because `websocketClientHandshake`
takes the context deadline unconditionally, not only when tighter. -/
theorem claim6_counterexample :
    handshakeDeadline 0 (some (20 * 1000000000)) = 20 * 1000000000 ∧
    20 * 1000000000 > 0 + webSocketHandshakeTimeout := by
  constructor
  · rfl
  · decide

/-- Claim C6 (amended): the websocket upgrade handshake runs under a
deadline equal to the caller's context deadline whenever one is set —
even when that is later than the 10-second default — and to the
default 10-second handshake timeout otherwise; so the deadline is
within 10 s of the start exactly when no caller deadline is set or the
caller's deadline is at least as tight. -/
theorem claim6_deadline_is_ctx_or_default (now : Int) :
    handshakeDeadline now none = now + webSocketHandshakeTimeout ∧
    (∀ d, handshakeDeadline now (some d) = d) ∧
    (∀ d, d ≤ now + webSocketHandshakeTimeout →
      handshakeDeadline now (some d) ≤ now + webSocketHandshakeTimeout) := by
  refine ⟨rfl, fun d => rfl, fun d hd => ?_⟩
  simpa [handshakeDeadline] using hd

theorem claim6_witness :
    handshakeDeadline 100 none = 100 + webSocketHandshakeTimeout ∧
    handshakeDeadline 100 (some 5) = 5 ∧
    handshakeDeadline 100 (some 5) ≤ 100 + webSocketHandshakeTimeout := by
  refine ⟨(claim6_deadline_is_ctx_or_default 100).1,
    (claim6_deadline_is_ctx_or_default 100).2.1 5,
    (claim6_deadline_is_ctx_or_default 100).2.2 5 (by decide)⟩


/-! ## Claims: frame codec -/


/-- Claim C2: for every opcode and every payload of length 0, 1, 125,
126, 65535 or 65536, decoding the frame produced by the client frame
encoder returns exactly `(opcode, FIN = true, payload)` and consumes
exactly the frame: the 7/16/64-bit length encoding and the 4-byte XOR
mask applied on encode are inverted by the decoder, for every mask. -/
theorem claim2_frame_roundtrip (op : Nat) (payload : List Nat)
    (m0 m1 m2 m3 : Nat) (rest : List Nat) (hop : op < 16)
    (hlen : payload.length = 0 ∨ payload.length = 1 ∨ payload.length = 125 ∨
      payload.length = 126 ∨ payload.length = 65535 ∨ payload.length = 65536) :
    readFrame (buildClientFrame op payload [m0, m1, m2, m3] ++ rest) =
      .ok (op, true, payload, rest) := by
  apply readFrame_buildClientFrame op payload m0 m1 m2 m3 rest hop
  have : maxWebSocketFrameSize = 33554432 := by decide
  omega

theorem claim2_witness :
    readFrame (buildClientFrame 1 [42] [7, 11, 13, 17] ++ []) = .ok (1, true, [42], []) :=
  claim2_frame_roundtrip 1 [42] 7 11 13 17 [] (by decide) (by decide)

/-- Claim C5 fails as stated: `buildClientFrame` performs no size
check — on a payload one byte over the 32 MiB maximum it still emits a
complete frame (header byte, 9 length bytes, 4 mask bytes, masked
payload), so encoding does produce a frame whose payload exceeds the
maximum. -/
theorem claim5_counterexample :
    (List.replicate (maxWebSocketFrameSize + 1) 0).length > maxWebSocketFrameSize ∧
    (buildClientFrame wsOpcodeText (List.replicate (maxWebSocketFrameSize + 1) 0)
        [0, 0, 0, 0]).length = 14 + (maxWebSocketFrameSize + 1) := by
  have hmax : maxWebSocketFrameSize = 33554432 := by decide
  have hrep : (List.replicate (maxWebSocketFrameSize + 1) (0 : Nat)).length
      = maxWebSocketFrameSize + 1 := List.length_replicate _ _
  have hlen4 : ([0, 0, 0, 0] : List Nat).length = 4 := rfl
  refine ⟨by omega, ?_⟩
  calc (buildClientFrame wsOpcodeText (List.replicate (maxWebSocketFrameSize + 1) 0)
        [0, 0, 0, 0]).length
      = 10 + ([0, 0, 0, 0] : List Nat).length
          + (List.replicate (maxWebSocketFrameSize + 1) (0 : Nat)).length :=
        buildClientFrame_length_large _ _ _ (by omega)
    _ = 14 + (maxWebSocketFrameSize + 1) := by omega

/-- Claim C5 (amended): every received frame whose payload length
exceeds the fixed 32 MiB maximum is rejected by the decoder with a
frame-too-large error, so inbound frames never carry a payload above
the maximum; the encoder, however, performs no size check and emits a
complete frame for a payload of any length. -/
theorem claim5_decode_rejects_encode_unchecked (op : Nat) (payload : List Nat)
    (m0 m1 m2 m3 : Nat) (rest : List Nat)
    (hbig : payload.length > maxWebSocketFrameSize)
    (hovf : payload.length ≤ 2 ^ 63 - 1) :
    (buildClientFrame op payload [m0, m1, m2, m3]).length = 14 + payload.length ∧
    readFrame (buildClientFrame op payload [m0, m1, m2, m3] ++ rest) =
      .error (.frameTooLarge payload.length) := by
  have hmax : maxWebSocketFrameSize = 33554432 := by decide
  have hlen4 : ([m0, m1, m2, m3] : List Nat).length = 4 := rfl
  constructor
  · calc (buildClientFrame op payload [m0, m1, m2, m3]).length
        = 10 + ([m0, m1, m2, m3] : List Nat).length + payload.length :=
          buildClientFrame_length_large _ _ _ (by omega)
      _ = 14 + payload.length := by omega
  · exact readFrame_buildClientFrame_tooLarge op payload m0 m1 m2 m3 rest hbig hovf

theorem claim5_witness :
    readFrame (buildClientFrame wsOpcodeText (List.replicate (maxWebSocketFrameSize + 1) 0)
        [0, 0, 0, 0] ++ []) =
      .error (.frameTooLarge (maxWebSocketFrameSize + 1)) := by
  have h := claim5_decode_rejects_encode_unchecked wsOpcodeText
    (List.replicate (maxWebSocketFrameSize + 1) 0) 0 0 0 0 []
    (by rw [List.length_replicate]; omega)
    (by rw [List.length_replicate]
        have : maxWebSocketFrameSize = 33554432 := by decide
        omega)
  rw [List.length_replicate] at h
  exact h.2


/-! ## Claims: message reassembly and control frames -/


/-- Claim C4: a message split into a first text/binary frame with FIN
clear followed by N continuation frames (1 ≤ N ≤ 5) of which only the
last has FIN set reassembles to the concatenation of all fragment
payloads in arrival order (hence is independent of N); a continuation
frame with no open fragmentation sequence fails the read with a
protocol error, as does a new data frame while a sequence is open. -/
theorem claim4_fragment_reassembly (op : Nat) (p0 : List Nat) (ps : List (List Nat))
    (writeResults : List (Option GoError)) (q q2 : List Nat) (fin2 : Bool)
    (more : List WsFrame) (op2 : Nat)
    (hop : op = wsOpcodeText ∨ op = wsOpcodeBinary)
    (hop2 : op2 = wsOpcodeText ∨ op2 = wsOpcodeBinary)
    (hps : 1 ≤ ps.length ∧ ps.length ≤ 5) :
    readMessage (⟨op, false, p0⟩ :: contFrames ps) writeResults =
      ([], .ok (p0 ++ ps.flatten)) ∧
    readMessage (⟨wsOpcodeContinuation, fin2, q⟩ :: more) writeResults =
      ([], .error .unexpectedContinuationFrame) ∧
    readMessage (⟨op, false, p0⟩ :: ⟨op2, fin2, q2⟩ :: more) writeResults =
      ([], .error .unexpectedDataFrame) := by
  have hps' : ps ≠ [] := by
    cases ps with
    | nil => simp at hps
    | cons a l => exact List.cons_ne_nil a l
  refine ⟨?_, ?_, ?_⟩
  · unfold readMessage
    rw [show readMessageLoop (⟨op, false, p0⟩ :: contFrames ps) writeResults [] [] false =
        readMessageLoop (contFrames ps) writeResults [] ([] ++ p0) true from by
      rcases hop with h | h <;> subst h <;>
        simp [readMessageLoop, wsOpcodeText, wsOpcodeBinary, wsOpcodeContinuation]]
    rw [readMessageLoop_contFrames ps hps' writeResults [] ([] ++ p0)]
    simp
  · unfold readMessage
    simp [readMessageLoop, wsOpcodeText, wsOpcodeBinary, wsOpcodeContinuation]
  · unfold readMessage
    rw [show readMessageLoop (⟨op, false, p0⟩ :: ⟨op2, fin2, q2⟩ :: more)
          writeResults [] [] false =
        readMessageLoop (⟨op2, fin2, q2⟩ :: more) writeResults [] ([] ++ p0) true from by
      rcases hop with h | h <;> subst h <;>
        simp [readMessageLoop, wsOpcodeText, wsOpcodeBinary, wsOpcodeContinuation]]
    rcases hop2 with h | h <;> subst h <;>
      simp [readMessageLoop, wsOpcodeText, wsOpcodeBinary, wsOpcodeContinuation]

theorem claim4_witness :
    readMessage [⟨wsOpcodeText, false, [1, 2]⟩, ⟨wsOpcodeContinuation, false, [3]⟩,
        ⟨wsOpcodeContinuation, true, [4, 5]⟩] [] = ([], .ok [1, 2, 3, 4, 5]) ∧
    readMessage [⟨wsOpcodeContinuation, true, [9]⟩] [] =
      ([], .error .unexpectedContinuationFrame) ∧
    readMessage [⟨wsOpcodeText, false, [1]⟩, ⟨wsOpcodeBinary, true, [2]⟩] [] =
      ([], .error .unexpectedDataFrame) := by
  have h := claim4_fragment_reassembly wsOpcodeText [1, 2] [[3], [4, 5]] [] [9] [2] true
    [] wsOpcodeBinary (Or.inl rfl) (Or.inr rfl) (by decide)
  refine ⟨?_, ?_, ?_⟩
  · have h1 := h.1
    simpa [contFrames] using h1
  · exact h.2.1
  · exact h.2.2

/-- Claim C8: every ping decoded by `readMessage` is answered with
exactly one pong frame carrying the same payload, after which reading
continues with the loop state untouched — pings never surface as a
message (a run of pings before a data frame yields exactly their
payloads as pong writes, in order, and the data message as the
result) — and an inbound pong is silently discarded. -/
theorem claim8_ping_pong (pings : List (List Nat)) (M x p : List Nat)
    (f f2 : Bool) (rest : List WsFrame) (writeResults : List (Option GoError))
    (writes : List (List Nat)) (buffer : List Nat) (expect : Bool) :
    readMessage (pings.map (fun x => ⟨wsOpcodePing, false, x⟩) ++ [⟨wsOpcodeText, true, M⟩]) [] =
      (pings, .ok M) ∧
    readMessageLoop (⟨wsOpcodePing, f, x⟩ :: rest) [] writes buffer expect =
      readMessageLoop rest [] (writes ++ [x]) buffer expect ∧
    readMessageLoop (⟨wsOpcodePong, f2, p⟩ :: rest) writeResults writes buffer expect =
      readMessageLoop rest writeResults writes buffer expect := by
  refine ⟨?_, ?_, ?_⟩
  · unfold readMessage
    rw [readMessageLoop_pings pings [⟨wsOpcodeText, true, M⟩] [] [] false]
    simp [readMessageLoop, wsOpcodeText]
  · simp [readMessageLoop, wsOpcodePing, wsOpcodeText, wsOpcodeBinary, wsOpcodeContinuation]
  · simp [readMessageLoop, wsOpcodePong, wsOpcodePing, wsOpcodeText, wsOpcodeBinary,
      wsOpcodeContinuation]


theorem claim8_witness :
    readMessage [⟨wsOpcodePing, false, [7]⟩, ⟨wsOpcodePing, false, [8]⟩,
        ⟨wsOpcodeText, true, [1, 2]⟩] [] = ([[7], [8]], .ok [1, 2]) := by
  have h := (claim8_ping_pong [[7], [8]] [1, 2] [] [] false false [] [] [] [] false).1
  simpa using h

theorem claim9_witness :
    runLoop 0 [⟨none, .ok "wss://x", .error (.other "dial refused"), none, none,
      some .canceled⟩] = some GoError.canceled :=
  (claim9_cancel_during_wait_returns 0 .canceled (.other "dial refused") "wss://x" []).1

end SuptechSocketMode
